import Mathlib

/-!
Verification of the terraform-provider-tencentcloud resource files.

Each definition below is a shallow embedding of a Go function or schema
declaration from the repository sources (file and function named in the doc
comment).  Strings manipulated by `strings.Split` / `strings.Join` are
embedded as `List Char`; fallible Go functions returning `error` are embedded
as `Except String _`; the Terraform SDK's `resource.Retry` polling loops are
embedded as a step function `α → RetryDecision` run over the finite list of
responses observed before the fixed timeout expires.

The file is organised as definitions first, then theorems.
-/

namespace TencentCloud

/-! ## Compound resource IDs (FILED_SP join / split)

`FILED_SP` is declared outside the provided sources.  Modelled from the spec:
the import documentation in the sources shows compound IDs as
`instance_id#agent_id` and `function_name#namespace`, so the separator is the
single character `#`. -/

/-- Modelled from the spec: the `FILED_SP` separator constant, `"#"` as shown
by the import examples `instance_id#agent_id` and `function_name#namespace`. -/
def FILED_SP : Char := '#'

/-- Embedding of Go `strings.Split(s, sep)` for a one-character separator:
the list of substrings between occurrences of `sep`.  As in Go, the empty
string splits to `[""]` and a string with `n` separators splits into `n + 1`
parts. -/
def splitOnSep (sep : Char) : List Char → List (List Char)
  | [] => [[]]
  | c :: cs =>
    if c = sep then [] :: splitOnSep sep cs
    else
      match splitOnSep sep cs with
      | [] => [[c]]
      | p :: ps => (c :: p) :: ps

/-- Embedding of the ID construction shared by the three compound-ID creates:
`strings.Join([]string{instanceId, tmpCvmAgentId}, FILED_SP)`
(resource_tc_monitor_tmp_cvm_agent.go, create),
`environId + FILED_SP + roleName` (tdmq namespace role attachment, create) and
`functionName + FILED_SP + namespace`
(resource_tc_scf_function_event_invoke_config.go, create). -/
def mkCompoundId (a b : List Char) : List Char :=
  a ++ FILED_SP :: b

/-- Embedding of the ID parsing shared by the compound-ID reads/updates/
deletes that do parse (`ids := strings.Split(d.Id(), FILED_SP);
if len(ids) != 2 { return fmt.Errorf(...) }`, then use of `ids[0], ids[1]`). -/
def parseCompoundId (id : List Char) : Except String (List Char × List Char) :=
  match splitOnSep FILED_SP id with
  | [a, b] => .ok (a, b)
  | _ => .error "id is broken"

/-! ## No-op delete operations -/

/-- The Terraform resource data visible to the delete handlers: the stored ID
and the schema attribute map. -/
structure ResourceDataState where
  id : List Char
  attrs : List (String × String)
deriving DecidableEq, Repr

/-- Embedding of `resourceTencentCloudMonitorTmpCvmAgentDelete`
(resource_tc_monitor_tmp_cvm_agent.go, lines 180-185): the body only defers
logging and the inconsistency check and returns `nil`.  The result is the
unchanged resource data, the list of SDK actions issued (none), and the
returned error (none). -/
def resourceTencentCloudMonitorTmpCvmAgentDelete (d : ResourceDataState) :
    ResourceDataState × List String × Except String Unit :=
  (d, [], .ok ())

/-- Embedding of `resourceTencentCloudScfFunctionEventInvokeConfigDelete`
(resource_tc_scf_function_event_invoke_config.go, lines 221-226): the body only
defers logging and the inconsistency check and returns `nil`. -/
def resourceTencentCloudScfFunctionEventInvokeConfigDelete (d : ResourceDataState) :
    ResourceDataState × List String × Except String Unit :=
  (d, [], .ok ())

/-! ## `resource.Retry` polling loops -/

/-- The value returned by one execution of a `resource.Retry` closure:
`nil` (done), `resource.RetryableError(msg)` or `resource.NonRetryableError(msg)`. -/
inductive RetryDecision
  | done
  | retryable (msg : String)
  | nonRetryable (msg : String)
deriving DecidableEq, Repr

/-- The outcome of a whole `resource.Retry(timeout, f)` loop. -/
inductive PollOutcome
  | success
  | failed (msg : String)
  | timedOut
deriving DecidableEq, Repr

/-- Semantics of `resource.Retry(timeout, f)`: `f` runs on each successive
observation until it returns `nil` (success), returns a non-retryable error
(failure with that error), or the fixed timeout expires — i.e. the finite
list of observations made before the deadline is exhausted. -/
def runRetry {α : Type} (step : α → RetryDecision) : List α → PollOutcome
  | [] => .timedOut
  | r :: rs =>
    match step r with
    | .done => .success
    | .nonRetryable m => .failed m
    | .retryable _ => runRetry step rs

/-- Modelled from the spec: the NAT gateway failed status constant
`NAT_FAILED_STATE`, declared outside the provided sources; the spec describes
the status enum as `AVAILABLE`, `CREATING`, `FAILED`. -/
def NAT_FAILED_STATE : String := "FAILED"

/-- Embedding of the create-wait closure of `resourceTencentCloudNatGatewayCreate`
(resource_tc_nat_gateway.go, lines 199-219), as a function of the states of the
gateways in the `DescribeNatGateways` response: a response without exactly one
gateway is the non-retryable "creating error"; a state of "AVAILABLE" is
success; any other state retries. -/
def natGatewayCreatePollStep (gatewayStates : List String) : RetryDecision :=
  if gatewayStates.length ≠ 1 then .nonRetryable "creating error"
  else if gatewayStates.headD "" = "AVAILABLE" then .done
  else .retryable "creating not ready retry"

/-- Embedding of the delete-wait closure of `resourceTencentCloudNatGatewayDelete`
(resource_tc_nat_gateway.go, lines 526-548): an empty response is success; a
first gateway in `NAT_FAILED_STATE` is the non-retryable "delete NAT failed";
anything else retries. -/
def natGatewayDeletePollStep (gatewayStates : List String) : RetryDecision :=
  if gatewayStates.length = 0 then .done
  else if gatewayStates.headD "" = NAT_FAILED_STATE then .nonRetryable "delete NAT failed"
  else .retryable "deleting retry"

/-! ## EMR cluster status polling -/

/-- A Go `error` value as seen by the EMR polling closures: either a
`TencentCloudSDKError` carrying a code, or any other non-nil error. -/
inductive GoError
  | sdk (code : String)
  | plain (msg : String)
deriving DecidableEq, Repr

/-- Modelled from the spec: the expected terminal status for the EMR create
and update polls (`EmrInternetStatusCreated`, declared outside the provided
sources; only its distinctness matters here). -/
def EmrInternetStatusCreated : Int := 2

/-- Modelled from the spec: the expected terminal status for the EMR delete
poll (`EmrInternetStatusDeleted`, declared outside the provided sources). -/
def EmrInternetStatusDeleted : Int := 201

/-- The Go type-switch `if e, ok := err.(*errors.TencentCloudSDKError); ok`
followed by a comparison of `e.GetCode()` against the given codes. -/
def goErrIsSdkIn (stopCodes : List String) : Option GoError → Bool
  | some (.sdk code) => stopCodes.contains code
  | _ => false

/-- Embedding of the polling closures of `resourceTencentCloudEmrClusterCreate`
(src/unnamed/part_002, lines 367-388), `...Update` (lines 322-343) and
`...Delete` (lines 423-447), as a function of the describe error and the
statuses of the returned clusters: the closure returns `nil` if the error is a
`TencentCloudSDKError` with a whitelisted code; else retries if a cluster is
present whose status differs from the expected value; else retries on any
remaining error; otherwise returns `nil`. -/
def emrClusterPollStep (stopCodes : List String) (expected : Int)
    (err : Option GoError) (statuses : List Int) : RetryDecision :=
  if goErrIsSdkIn stopCodes err then .done
  else if statuses ≠ [] ∧ statuses.headD 0 ≠ expected then
    .retryable "create cluster endpoint status still is not expected"
  else if err.isSome then .retryable "describe error"
  else .done

/-- The create poll of `resourceTencentCloudEmrClusterCreate`. -/
def emrClusterCreatePoll (obs : Option GoError × List Int) : RetryDecision :=
  emrClusterPollStep ["InternalError.ClusterNotFound"] EmrInternetStatusCreated obs.1 obs.2

/-- The update poll of `resourceTencentCloudEmrClusterUpdate` (same closure
body as the create poll). -/
def emrClusterUpdatePoll (obs : Option GoError × List Int) : RetryDecision :=
  emrClusterPollStep ["InternalError.ClusterNotFound"] EmrInternetStatusCreated obs.1 obs.2

/-- The delete poll of `resourceTencentCloudEmrClusterDelete`, which also
stops on `UnauthorizedOperation` and expects `EmrInternetStatusDeleted`. -/
def emrClusterDeletePoll (obs : Option GoError × List Int) : RetryDecision :=
  emrClusterPollStep ["InternalError.ClusterNotFound", "UnauthorizedOperation"]
    EmrInternetStatusDeleted obs.1 obs.2

/-- The condition under which an EMR polling closure stops successfully. -/
def emrPollDone (stopCodes : List String) (expected : Int)
    (err : Option GoError) (statuses : List Int) : Prop :=
  goErrIsSdkIn stopCodes err = true ∨
    (err = none ∧ (statuses = [] ∨ statuses.headD 0 = expected))

instance (stopCodes : List String) (expected : Int) (err : Option GoError)
    (statuses : List Int) : Decidable (emrPollDone stopCodes expected err statuses) := by
  unfold emrPollDone; infer_instance

/-! ## Resource lifecycle declarations -/

/-- The lifecycle handlers declared by a `schema.Resource` literal. -/
structure ResourceLifecycle where
  hasCreate : Bool
  hasRead : Bool
  hasUpdate : Bool
  hasDelete : Bool
  hasImporter : Bool
deriving DecidableEq, Repr

/-- Embedding of `resourceTencentCloudMonitorTmpCvmAgent`
(resource_tc_monitor_tmp_cvm_agent.go, lines 62-70): Read, Create and Delete
handlers are declared; the Update line is commented out in the source. -/
def resourceTencentCloudMonitorTmpCvmAgent : ResourceLifecycle :=
  ⟨true, true, false, true, true⟩

/-- Embedding of `resourceTencentCloudWedataRuleTemplate`
(resource_tc_monitor_tmp_cvm_agent.go, lines 227-235). -/
def resourceTencentCloudWedataRuleTemplate : ResourceLifecycle :=
  ⟨true, true, true, true, true⟩

/-- Embedding of `resourceTencentCloudNatGateway`
(resource_tc_nat_gateway.go, lines 59-67). -/
def resourceTencentCloudNatGateway : ResourceLifecycle :=
  ⟨true, true, true, true, true⟩

/-- Embedding of `resourceTencentCloudScfFunctionEventInvokeConfig`
(resource_tc_scf_function_event_invoke_config.go, lines 41-49). -/
def resourceTencentCloudScfFunctionEventInvokeConfig : ResourceLifecycle :=
  ⟨true, true, true, true, true⟩

/-- Embedding of `resourceTencentCloudTdmqNamespaceRoleAttachment`
(src/unnamed/part_000, lines 235-243). -/
def resourceTencentCloudTdmqNamespaceRoleAttachment : ResourceLifecycle :=
  ⟨true, true, true, true, true⟩

/-- Embedding of `resourceTencentCloudTdmqRabbitmqUser`
(src/tencentcloud/data_source_tc_postgresql_parameter_templates_test.go,
lines 99-105; the file also holds this resource): all four handlers, no
importer. -/
def resourceTencentCloudTdmqRabbitmqUser : ResourceLifecycle :=
  ⟨true, true, true, true, false⟩

/-- Embedding of `resourceTencentCloudEmrCluster`
(src/unnamed/part_002, lines 107-112): all four handlers, no importer. -/
def resourceTencentCloudEmrCluster : ResourceLifecycle :=
  ⟨true, true, true, true, false⟩

/-- Every resource definition in the provided repository sources, by Terraform
type name. -/
def repoResources : List (String × ResourceLifecycle) :=
  [("tencentcloud_monitor_tmp_cvm_agent", resourceTencentCloudMonitorTmpCvmAgent),
   ("tencentcloud_wedata_rule_template", resourceTencentCloudWedataRuleTemplate),
   ("tencentcloud_nat_gateway", resourceTencentCloudNatGateway),
   ("tencentcloud_scf_function_event_invoke_config",
     resourceTencentCloudScfFunctionEventInvokeConfig),
   ("tencentcloud_tdmq_namespace_role_attachment",
     resourceTencentCloudTdmqNamespaceRoleAttachment),
   ("tencentcloud_tdmq_rabbitmq_user", resourceTencentCloudTdmqRabbitmqUser),
   ("tencentcloud_emr_cluster", resourceTencentCloudEmrCluster)]

/-! ## NAT gateway schema validation -/

/-- Modelled from the spec: the shared validator `validateStringLengthInRange`
(declared outside the provided sources), which accepts a string whose Go
`len` — its byte length — lies in the inclusive range. -/
def validateStringLengthInRange (minLen maxLen : Nat) (v : String) : Bool :=
  decide (minLen ≤ v.utf8ByteSize ∧ v.utf8ByteSize ≤ maxLen)

/-- Modelled from the spec: the shared validator `validateAllowedIntValue`
(declared outside the provided sources), which accepts an integer belonging to
the allowed list. -/
def validateAllowedIntValue (allowed : List Int) (v : Int) : Bool :=
  allowed.contains v

/-- Decimal value of a digit string, for `validateIp`. -/
def decimalValue (s : List Char) : Nat :=
  s.foldl (fun n c => n * 10 + (c.toNat - '0'.toNat)) 0

/-- Modelled from the spec: the shared validator `validateIp` (declared
outside the provided sources), which accepts a string that validates as an IP
address; modelled as a dotted-quad IPv4 address. -/
def validateIp (v : String) : Bool :=
  let parts := splitOnSep '.' v.toList
  decide (parts.length = 4) &&
    parts.all fun p =>
      decide (p ≠ []) && decide (p.length ≤ 3) && p.all (·.isDigit) &&
        decide (decimalValue p ≤ 255)

/-- The arguments of the `tencentcloud_nat_gateway` schema
(resource_tc_nat_gateway.go, lines 69-123); `none` is an omitted optional
argument. -/
structure NatGatewayConfig where
  vpcId : String
  name : String
  maxConcurrent : Option Int
  bandwidth : Option Int
  assignedEipSet : List String
  zone : Option String
deriving Repr

/-- The effective `max_concurrent` after the schema default 1000000. -/
def natGatewayMaxConcurrentEffective (c : NatGatewayConfig) : Int :=
  c.maxConcurrent.getD 1000000

/-- Embedding of the validation declared by the `tencentcloud_nat_gateway`
schema: `name` is checked by `validateStringLengthInRange(1, 60)`,
`max_concurrent` by `validateAllowedIntValue([1000000, 3000000, 10000000])`
after its default is applied, and `assigned_eip_set` must hold between
`MinItems` 1 and `MaxItems` 10 elements, each accepted by `validateIp`
(`vpc_id`, `bandwidth`, `zone` and `tags` carry no validator). -/
def natGatewayValidateConfig (c : NatGatewayConfig) : Bool :=
  validateStringLengthInRange 1 60 c.name &&
  validateAllowedIntValue [1000000, 3000000, 10000000] (natGatewayMaxConcurrentEffective c) &&
  decide (1 ≤ c.assignedEipSet.length) && decide (c.assignedEipSet.length ≤ 10) &&
  c.assignedEipSet.all validateIp

/-! ## Wedata rule template update -/

/-- The fields of `wedata.NewModifyRuleTemplateRequest` populated by the
update handler (nil pointers are `none`; the nil slice is `[]`). -/
structure ModifyRuleTemplateRequest where
  templateId : String
  templateType : Option Nat
  name : Option String
  qualityDim : Option Nat
  sourceObjectType : Option Nat
  description : Option String
  sourceEngineTypes : List Nat
  multiSourceFlag : Option Bool
  sqlExpression : Option String
  projectId : Option String
  whereFlag : Option Bool
deriving DecidableEq, Repr

/-- The Terraform resource data seen by the wedata update handler: which
argument names `d.HasChange` reports changed, and the current values. -/
structure WedataResourceData where
  changed : String → Bool
  typeVal : Option Nat
  nameVal : Option String
  qualityDimVal : Option Nat
  sourceObjectTypeVal : Option Nat
  descriptionVal : Option String
  sourceEngineTypesVal : Option (List Nat)
  multiSourceFlagVal : Option Bool
  sqlExpressionVal : Option String
  projectIdVal : Option String
  whereFlagVal : Option Bool

/-- The `immutableArgs` list of `resourceTencentCloudWedataRuleTemplateUpdate`
(resource_tc_monitor_tmp_cvm_agent.go, lines 453-457). -/
def wedataImmutableArgs : List String :=
  ["type", "name", "quality_dim", "source_object_type", "description",
   "source_engine_types", "multi_source_flag", "sql_expression", "project_id",
   "where_flag"]

/-- The loop `for _, v := range immutableArgs { if d.HasChange(v) { return
fmt.Errorf(...) } }`: the first changed argument, if any. -/
def firstChanged (changed : String → Bool) : List String → Option String
  | [] => none
  | a :: rest => if changed a then some a else firstChanged changed rest

/-- Embedding of `resourceTencentCloudWedataRuleTemplateUpdate`
(resource_tc_monitor_tmp_cvm_agent.go, lines 441-544): the immutable-argument
check runs first and returns its error before any SDK call; otherwise each
request field is set only under `d.HasChange`, and the returned request is the
one passed to `ModifyRuleTemplate` inside `resource.Retry`. -/
def resourceTencentCloudWedataRuleTemplateUpdate (id : String)
    (d : WedataResourceData) : Except String ModifyRuleTemplateRequest :=
  match firstChanged d.changed wedataImmutableArgs with
  | some a => .error ("argument `" ++ a ++ "` cannot be changed")
  | none =>
    .ok
      { templateId := id
        templateType := if d.changed "type" then d.typeVal else none
        name := if d.changed "name" then d.nameVal else none
        qualityDim := if d.changed "quality_dim" then d.qualityDimVal else none
        sourceObjectType :=
          if d.changed "source_object_type" then d.sourceObjectTypeVal else none
        description := if d.changed "description" then d.descriptionVal else none
        sourceEngineTypes :=
          if d.changed "source_engine_types" then d.sourceEngineTypesVal.getD [] else []
        multiSourceFlag :=
          if d.changed "multi_source_flag" then d.multiSourceFlagVal else none
        sqlExpression := if d.changed "sql_expression" then d.sqlExpressionVal else none
        projectId := if d.changed "project_id" then d.projectIdVal else none
        whereFlag := if d.changed "where_flag" then d.whereFlagVal else none }

/-- A resource data instance whose only changed argument is `name` (used as a
concrete witness input). -/
def wedataChangedNameData : WedataResourceData :=
  { changed := fun s => s == "name", typeVal := none, nameVal := some "n2",
    qualityDimVal := none, sourceObjectTypeVal := none, descriptionVal := none,
    sourceEngineTypesVal := none, multiSourceFlagVal := none,
    sqlExpressionVal := none, projectIdVal := none, whereFlagVal := none }

/-! ## NAT gateway EIP update -/

/-- Modelled from the spec: the maximum number of EIPs assignable to a NAT
gateway (`NAT_EIP_MAX_LIMIT`, declared outside the provided sources; the
schema caps `assigned_eip_set` at `MaxItems` 10). -/
def NAT_EIP_MAX_LIMIT : Nat := 10

/-- Embedding of the unassign loop of `resourceTencentCloudNatGatewayUpdate`
(resource_tc_nat_gateway.go, lines 361-384): each old EIP absent from the new
set is appended to the disassociate request, except when
`len(request)+1 == len(oldEipSet)` — inserting it would make the request hold
every old EIP — in which case it is stored in `backUpOldIp` instead (the
empty string when never set). -/
def natGatewayCollectUnassigned (oldEipSet newEipSet : List String) :
    List String × String :=
  oldEipSet.foldl
    (fun acc ip =>
      if ip ∈ newEipSet then acc
      else if acc.1.length + 1 = oldEipSet.length then (acc.1, ip)
      else (acc.1 ++ [ip], acc.2))
    ([], "")

/-- Embedding of the assign loop (resource_tc_nat_gateway.go, lines 402-422):
each new EIP absent from the old set is appended to the associate request,
except when `len(request)+eipSetLength+1 == NAT_EIP_MAX_LIMIT` (with
`eipSetLength` the size of the whole new set), in which case it is stored in
`backUpNewIp`, overwriting any EIP stored there earlier. -/
def natGatewayCollectAssigned (oldEipSet newEipSet : List String) :
    List String × String :=
  newEipSet.foldl
    (fun acc ip =>
      if ip ∈ oldEipSet then acc
      else if acc.1.length + newEipSet.length + 1 = NAT_EIP_MAX_LIMIT then (acc.1, ip)
      else (acc.1 ++ [ip], acc.2))
    ([], "")

/-! ## NAT gateway lifecycle operations and the retry contract -/

/-- The two fixed retry timeouts used by the NAT gateway operations. -/
inductive RetryTimeout
  | read
  | write
deriving DecidableEq, Repr

/-- An SDK action issued by a NAT gateway lifecycle operation.  A whole
`resource.Retry` polling loop (the create wait and the delete wait) counts as
one action whose outcome is the loop's final result. -/
inductive NatAction
  | createNatGateway
  | describeCreatedWait
  | describeNatGateways
  | describeResourceTags
  | modifyTags
  | modifyNatGatewayAttribute
  | resetNatGatewayConnection
  | disassociateNatGatewayAddress (ips : List String)
  | associateNatGatewayAddress (ips : List String)
  | deleteNatGateway
  | describeDeletedWait
deriving DecidableEq, Repr

/-- An SDK call together with the `resource.Retry` timeout wrapping it
(`none` would be a call issued outside any retry wrapper; the embedding
records what the source wraps each call in). -/
structure SdkCall where
  action : NatAction
  timeout : Option RetryTimeout
deriving DecidableEq, Repr

/-- A call is wrapped in `resource.Retry` with one of the two fixed
timeouts. -/
def WrappedFixed (c : SdkCall) : Prop :=
  c.timeout = some .read ∨ c.timeout = some .write

/-- The outcome the environment gives to the i-th wrapped call of an
operation: an error returned by its retry wrapper, or success together with
the number of gateways in the response (meaningful for the describe and
create calls, ignored otherwise). -/
def SdkOracle := Nat → Except String Nat

/-- Issue one wrapped SDK call: on a wrapper error the operation returns that
error at once; on success the continuation runs with the response payload.
The call index is the number of calls already issued. -/
def emitCall (o : SdkOracle) (c : SdkCall) (tr : List SdkCall)
    (k : Nat → List SdkCall → List SdkCall × Except String Unit) :
    List SdkCall × Except String Unit :=
  match o tr.length with
  | .error e => (tr ++ [c], .error e)
  | .ok n => k n (tr ++ [c])

/-- `emitCall` under a Go `if`: when `cond` fails the continuation runs
directly (with payload 0). -/
def maybeCall (cond : Prop) [Decidable cond] (o : SdkOracle) (c : SdkCall)
    (tr : List SdkCall)
    (k : Nat → List SdkCall → List SdkCall × Except String Unit) :
    List SdkCall × Except String Unit :=
  if cond then emitCall o c tr k else k 0 tr

/-- Embedding of `resourceTencentCloudNatGatewayRead`
(resource_tc_nat_gateway.go, lines 227-276), from an arbitrary starting
trace: `DescribeNatGateways` inside `resource.Retry(readRetryTimeout)`, whose
wrapper error is returned; an empty gateway set clears the ID and returns
nil; otherwise the tag read runs (`DescribeResourceTags` — modelled from the
spec as an SDK call wrapped in a read retry inside the tag service) and its
error, if any, is returned. -/
def natGatewayReadFrom (o : SdkOracle) (tr : List SdkCall) :
    List SdkCall × Except String Unit :=
  emitCall o ⟨.describeNatGateways, some .read⟩ tr fun n tr =>
    if n < 1 then (tr, .ok ())
    else emitCall o ⟨.describeResourceTags, some .read⟩ tr fun _ tr => (tr, .ok ())

/-- `resourceTencentCloudNatGatewayRead` as a whole operation. -/
def resourceTencentCloudNatGatewayReadRun (o : SdkOracle) :
    List SdkCall × Except String Unit :=
  natGatewayReadFrom o []

/-- Embedding of `resourceTencentCloudNatGatewayCreate`
(resource_tc_nat_gateway.go, lines 127-225): `CreateNatGateway` inside
`resource.Retry(readRetryTimeout)`; an empty `NatGatewaySet` in its response
is the non-wrapper error "NAT gateway ID is nil"; when tags are configured
`ModifyTags` runs (modelled from the spec as an SDK call wrapped in a write
retry inside the tag service); then the create wait loop; then the read
handler.  Every error returns immediately. -/
def natGatewayCreateFrom (hasTags : Bool) (o : SdkOracle) (tr : List SdkCall) :
    List SdkCall × Except String Unit :=
  emitCall o ⟨.createNatGateway, some .read⟩ tr fun n tr =>
    if n < 1 then (tr, .error "NAT gateway ID is nil")
    else
      maybeCall hasTags o ⟨.modifyTags, some .write⟩ tr fun _ tr =>
        emitCall o ⟨.describeCreatedWait, some .read⟩ tr fun _ tr =>
          natGatewayReadFrom o tr

/-- `resourceTencentCloudNatGatewayCreate` as a whole operation. -/
def resourceTencentCloudNatGatewayCreateRun (hasTags : Bool) (o : SdkOracle) :
    List SdkCall × Except String Unit :=
  natGatewayCreateFrom hasTags o []

/-- Embedding of `resourceTencentCloudNatGatewayDelete`
(resource_tc_nat_gateway.go, lines 499-554): `DeleteNatGateway` inside
`resource.Retry(writeRetryTimeout)`, then the delete wait loop inside
`resource.Retry(readRetryTimeout)`. -/
def natGatewayDeleteFrom (o : SdkOracle) (tr : List SdkCall) :
    List SdkCall × Except String Unit :=
  emitCall o ⟨.deleteNatGateway, some .write⟩ tr fun _ tr =>
    emitCall o ⟨.describeDeletedWait, some .read⟩ tr fun _ tr => (tr, .ok ())

/-- `resourceTencentCloudNatGatewayDelete` as a whole operation. -/
def resourceTencentCloudNatGatewayDeleteRun (o : SdkOracle) :
    List SdkCall × Except String Unit :=
  natGatewayDeleteFrom o []

/-- The `d.HasChange` results and EIP sets seen by the NAT gateway update. -/
structure NatUpdateArgs where
  changedZone : Bool
  changedName : Bool
  changedBandwidth : Bool
  changedMaxConcurrent : Bool
  changedEipSet : Bool
  changedTags : Bool
  oldEipSet : List String
  newEipSet : List String

/-- The tag phase ending `resourceTencentCloudNatGatewayUpdate` (lines
480-496): `ModifyTags` on a tag change (modelled from the spec as an SDK call
wrapped in a write retry inside the tag service), then nil. -/
def natGatewayUpdateTagsPhase (a : NatUpdateArgs) (o : SdkOracle) (tr : List SdkCall) :
    List SdkCall × Except String Unit :=
  maybeCall a.changedTags o ⟨.modifyTags, some .write⟩ tr fun _ tr => (tr, .ok ())

/-- The EIP phase of `resourceTencentCloudNatGatewayUpdate` (lines 347-478):
on an `assigned_eip_set` change, the bulk disassociate of the collected
removed EIPs when non-empty, the bulk associate of the collected added EIPs
when non-empty, then the single-EIP `backUpOldIp` disassociate and
`backUpNewIp` associate when set; each inside
`resource.Retry(readRetryTimeout)`, each error returned immediately. -/
def natGatewayUpdateEipPhase (a : NatUpdateArgs) (o : SdkOracle) (tr : List SdkCall) :
    List SdkCall × Except String Unit :=
  if a.changedEipSet then
    maybeCall ((natGatewayCollectUnassigned a.oldEipSet a.newEipSet).1 ≠ []) o
      ⟨.disassociateNatGatewayAddress (natGatewayCollectUnassigned a.oldEipSet a.newEipSet).1,
        some .read⟩ tr fun _ tr =>
    maybeCall ((natGatewayCollectAssigned a.oldEipSet a.newEipSet).1 ≠ []) o
      ⟨.associateNatGatewayAddress (natGatewayCollectAssigned a.oldEipSet a.newEipSet).1,
        some .read⟩ tr fun _ tr =>
    maybeCall ((natGatewayCollectUnassigned a.oldEipSet a.newEipSet).2 ≠ "") o
      ⟨.disassociateNatGatewayAddress
          [(natGatewayCollectUnassigned a.oldEipSet a.newEipSet).2], some .read⟩ tr fun _ tr =>
    maybeCall ((natGatewayCollectAssigned a.oldEipSet a.newEipSet).2 ≠ "") o
      ⟨.associateNatGatewayAddress
          [(natGatewayCollectAssigned a.oldEipSet a.newEipSet).2], some .read⟩ tr fun _ tr =>
    natGatewayUpdateTagsPhase a o tr
  else natGatewayUpdateTagsPhase a o tr

/-- Embedding of `resourceTencentCloudNatGatewayUpdate`
(resource_tc_nat_gateway.go, lines 278-497), from an arbitrary starting
trace: the immutable `zone` check first (its error is returned before any SDK
call); `ModifyNatGatewayAttribute` when name or bandwidth changed;
`ResetNatGatewayConnection` when `max_concurrent` changed; the EIP phase; the
tag phase. -/
def natGatewayUpdateFrom (a : NatUpdateArgs) (o : SdkOracle) (tr : List SdkCall) :
    List SdkCall × Except String Unit :=
  if a.changedZone then (tr, .error "argument `zone` cannot be changed")
  else
    maybeCall (a.changedName || a.changedBandwidth) o
        ⟨.modifyNatGatewayAttribute, some .read⟩ tr fun _ tr =>
      maybeCall a.changedMaxConcurrent o ⟨.resetNatGatewayConnection, some .read⟩ tr
        fun _ tr => natGatewayUpdateEipPhase a o tr

/-- `resourceTencentCloudNatGatewayUpdate` as a whole operation. -/
def resourceTencentCloudNatGatewayUpdateRun (a : NatUpdateArgs) (o : SdkOracle) :
    List SdkCall × Except String Unit :=
  natGatewayUpdateFrom a o []

/-- The retry contract of C6 for a completed operation: every SDK call issued
is wrapped in `resource.Retry` with one of the two fixed timeouts, and a
wrapper error at call `i` makes call `i` the operation's last call and that
error its result. -/
def RetryRunContract (o : SdkOracle) (r : List SdkCall × Except String Unit) : Prop :=
  (∀ c ∈ r.1, WrappedFixed c) ∧
  (∀ i e, i < r.1.length → o i = .error e → i + 1 = r.1.length ∧ r.2 = .error e)

/-- The retry contract for a continuation starting from an already-issued
trace. -/
def RetryContract (o : SdkOracle)
    (f : List SdkCall → List SdkCall × Except String Unit) : Prop :=
  ∀ tr : List SdkCall,
    (∃ rest, (f tr).1 = tr ++ rest ∧ ∀ c ∈ rest, WrappedFixed c) ∧
    (∀ i e, tr.length ≤ i → i < (f tr).1.length → o i = .error e →
      i + 1 = (f tr).1.length ∧ (f tr).2 = .error e)

/-- An oracle whose every call succeeds with one gateway in the response. -/
def okOracle : SdkOracle := fun _ => .ok 1

/-- An oracle whose first call fails with a network error. -/
def failingOracle : SdkOracle := fun i => if i = 0 then .error "network error" else .ok 1

/-! # Theorems -/

theorem splitOnSep_ne_nil (sep : Char) (s : List Char) : splitOnSep sep s ≠ [] := by
  cases s with
  | nil => simp [splitOnSep]
  | cons c cs =>
    simp only [splitOnSep]
    split
    · simp
    · split <;> simp

theorem splitOnSep_no_sep (sep : Char) (s : List Char) (h : sep ∉ s) :
    splitOnSep sep s = [s] := by
  induction s with
  | nil => rfl
  | cons c cs ih =>
    have hc : c ≠ sep := fun he => h (he ▸ List.mem_cons_self c cs)
    have hcs : sep ∉ cs := fun hm => h (List.mem_cons_of_mem c hm)
    simp only [splitOnSep, if_neg hc, ih hcs]

theorem splitOnSep_append (sep : Char) (a b : List Char) (ha : sep ∉ a) :
    splitOnSep sep (a ++ sep :: b) = a :: splitOnSep sep b := by
  induction a with
  | nil => simp [splitOnSep]
  | cons c a' ih =>
    have hc : c ≠ sep := fun he => ha (he ▸ List.mem_cons_self c a')
    have ha' : sep ∉ a' := fun hm => ha (List.mem_cons_of_mem c hm)
    have ih' := ih ha'
    simp only [List.cons_append] at *
    simp only [splitOnSep, if_neg hc, ih']

/-- C1 counterexample: the claim requires `delete` to split the ID and return
an error for every ID that does not split into exactly two parts, but the scf
function event invoke config delete never parses the ID: on the one-part ID
`"x"` it still succeeds with no SDK call. -/
theorem scf_delete_ignores_broken_id :
    (splitOnSep FILED_SP ['x']).length ≠ 2 ∧
    resourceTencentCloudScfFunctionEventInvokeConfigDelete ⟨['x'], []⟩ =
      (⟨['x'], []⟩, [], .ok ()) :=
  ⟨by decide, rfl⟩

/-- C1 (amended): create sets the compound resource ID to the two components
joined by `FILED_SP`; the lifecycle operations that parse the ID (read for all
three resources, update for scf and tdmq, delete for tdmq — the monitor agent
and scf deletes never parse it) recover exactly the original two components
whenever neither component contains the separator, and return an error for
every ID that does not split into exactly two parts. -/
theorem compound_id_roundtrip_amended :
    (∀ a b : List Char, FILED_SP ∉ a → FILED_SP ∉ b →
      parseCompoundId (mkCompoundId a b) = .ok (a, b)) ∧
    (∀ id : List Char, (splitOnSep FILED_SP id).length ≠ 2 →
      parseCompoundId id = .error "id is broken") := by
  constructor
  · intro a b ha hb
    unfold parseCompoundId mkCompoundId
    rw [splitOnSep_append _ _ _ ha, splitOnSep_no_sep _ _ hb]
  · intro id h
    unfold parseCompoundId
    cases hs : splitOnSep FILED_SP id with
    | nil => rfl
    | cons a rest =>
      cases rest with
      | nil => rfl
      | cons b rest2 =>
        cases rest2 with
        | nil => rw [hs] at h; simp at h
        | cons c rest3 => rfl

/-- Witness for C1 (amended): the roundtrip at `("id", "ag")` and the error at
the separator-free ID `"x"`. -/
theorem compound_id_roundtrip_amended_witness :
    parseCompoundId (mkCompoundId ['i', 'd'] ['a', 'g']) = .ok (['i', 'd'], ['a', 'g']) ∧
    parseCompoundId ['x'] = .error "id is broken" :=
  ⟨compound_id_roundtrip_amended.1 ['i', 'd'] ['a', 'g'] (by decide) (by decide),
   compound_id_roundtrip_amended.2 ['x'] (by decide)⟩

/-- C10: the monitor tmp cvm agent delete and the scf function event invoke
config delete make no SDK call and always return nil, leaving the resource
data (hence every schema attribute, and the remote object) unchanged. -/
theorem noop_delete_frame :
    ∀ d : ResourceDataState,
      resourceTencentCloudMonitorTmpCvmAgentDelete d = (d, [], .ok ()) ∧
      resourceTencentCloudScfFunctionEventInvokeConfigDelete d = (d, [], .ok ()) :=
  fun _ => ⟨rfl, rfl⟩

theorem runRetry_timedOut {α : Type} (step : α → RetryDecision) (obs : List α)
    (h : ∀ p ∈ obs, ∃ m, step p = .retryable m) : runRetry step obs = .timedOut := by
  induction obs with
  | nil => rfl
  | cons p rest ih =>
    obtain ⟨m, hm⟩ := h p (List.mem_cons_self p rest)
    simp only [runRetry, hm]
    exact ih fun q hq => h q (List.mem_cons_of_mem p hq)

theorem runRetry_success_iff {α : Type} (step : α → RetryDecision) (obs : List α) :
    runRetry step obs = .success ↔
      ∃ pre g post, obs = pre ++ g :: post ∧ step g = .done ∧
        ∀ p ∈ pre, ∃ m, step p = .retryable m := by
  induction obs with
  | nil =>
    simp only [runRetry]
    constructor
    · intro h; simp at h
    · rintro ⟨pre, g, post, heq, -, -⟩
      exact absurd heq.symm (List.append_ne_nil_of_right_ne_nil pre (List.cons_ne_nil g post))
  | cons p rest ih =>
    cases hs : step p with
    | done =>
      simp only [runRetry, hs]
      constructor
      · intro _
        exact ⟨[], p, rest, rfl, hs, by simp⟩
      · intro _; trivial
    | retryable m =>
      simp only [runRetry, hs]
      rw [ih]
      constructor
      · rintro ⟨pre, g, post, heq, hg, hpre⟩
        refine ⟨p :: pre, g, post, by rw [heq, List.cons_append], hg, ?_⟩
        intro q hq
        rcases List.mem_cons.mp hq with hqp | hqpre
        · exact ⟨m, hqp ▸ hs⟩
        · exact hpre q hqpre
      · rintro ⟨pre, g, post, heq, hg, hpre⟩
        cases pre with
        | nil =>
          simp only [List.nil_append] at heq
          injection heq with h1 h2
          rw [h1] at hs
          rw [hs] at hg
          cases hg
        | cons q pre' =>
          simp only [List.cons_append] at heq
          injection heq with h1 h2
          exact ⟨pre', g, post, h2, hg, fun r hr => hpre r (List.mem_cons_of_mem q hr)⟩
    | nonRetryable m =>
      simp only [runRetry, hs]
      constructor
      · intro h; simp at h
      · rintro ⟨pre, g, post, heq, hg, hpre⟩
        cases pre with
        | nil =>
          simp only [List.nil_append] at heq
          injection heq with h1 h2
          rw [h1] at hs
          rw [hs] at hg
          cases hg
        | cons q pre' =>
          simp only [List.cons_append] at heq
          injection heq with h1 h2
          obtain ⟨m', hm'⟩ := hpre q (List.mem_cons_self q pre')
          rw [h1] at hs
          rw [hs] at hm'
          cases hm'

theorem runRetry_success_iff_done {α : Type} (step : α → RetryDecision) (D : α → Prop)
    (hD : ∀ a, step a = .done ↔ D a)
    (hR : ∀ a, ¬ D a → ∃ m, step a = .retryable m) (obs : List α) :
    runRetry step obs = .success ↔
      ∃ pre g post, obs = pre ++ g :: post ∧ D g ∧ ∀ p ∈ pre, ¬ D p := by
  rw [runRetry_success_iff]
  constructor
  · rintro ⟨pre, g, post, heq, hg, hpre⟩
    refine ⟨pre, g, post, heq, (hD g).mp hg, ?_⟩
    intro p hp hDp
    obtain ⟨m, hm⟩ := hpre p hp
    rw [(hD p).mpr hDp] at hm
    cases hm
  · rintro ⟨pre, g, post, heq, hg, hpre⟩
    exact ⟨pre, g, post, heq, (hD g).mpr hg, fun p hp => hR p (hpre p hp)⟩

theorem natGatewayCreatePollStep_done_iff (gs : List String) :
    natGatewayCreatePollStep gs = .done ↔ gs = ["AVAILABLE"] := by
  unfold natGatewayCreatePollStep
  split_ifs with h1 h2
  · constructor
    · intro h; cases h
    · intro h; rw [h] at h1; simp at h1
  · constructor
    · intro _
      rcases gs with - | ⟨s, - | ⟨t, ts⟩⟩
      · simp at h1
      · simpa using h2
      · simp at h1
    · intro _; rfl
  · constructor
    · intro h; cases h
    · intro h; rw [h] at h2; simp at h2

theorem natGatewayCreatePollStep_retryable_iff (gs : List String) :
    (∃ m, natGatewayCreatePollStep gs = .retryable m) ↔
      gs.length = 1 ∧ gs.headD "" ≠ "AVAILABLE" := by
  unfold natGatewayCreatePollStep
  split_ifs with h1 h2
  · constructor
    · rintro ⟨m, hm⟩; cases hm
    · rintro ⟨hl, -⟩; exact absurd hl h1
  · constructor
    · rintro ⟨m, hm⟩; cases hm
    · rintro ⟨-, hh⟩; exact absurd h2 hh
  · constructor
    · intro _
      exact ⟨Decidable.not_not.mp h1, h2⟩
    · intro _; exact ⟨_, rfl⟩

/-- C2: the NAT gateway create wait loop returns success exactly when some
`DescribeNatGateways` poll observed exactly one gateway in state "AVAILABLE"
after earlier polls that each observed exactly one gateway in a different
state (which are retried); a poll whose response does not contain exactly one
gateway yields the non-retryable "creating error"; a single gateway in any
other state yields a retryable error. -/
theorem nat_gateway_create_poll_spec :
    (∀ polls : List (List String),
      runRetry natGatewayCreatePollStep polls = .success ↔
        ∃ pre post, polls = pre ++ ["AVAILABLE"] :: post ∧
          ∀ p ∈ pre, p.length = 1 ∧ p.headD "" ≠ "AVAILABLE") ∧
    (∀ gs : List String, gs.length ≠ 1 →
      natGatewayCreatePollStep gs = .nonRetryable "creating error") ∧
    (∀ s : String, s ≠ "AVAILABLE" →
      natGatewayCreatePollStep [s] = .retryable "creating not ready retry") := by
  refine ⟨?_, ?_, ?_⟩
  · intro polls
    rw [runRetry_success_iff]
    constructor
    · rintro ⟨pre, g, post, heq, hg, hpre⟩
      have hgA := (natGatewayCreatePollStep_done_iff g).mp hg
      refine ⟨pre, post, by rw [heq, hgA], ?_⟩
      intro p hp
      exact (natGatewayCreatePollStep_retryable_iff p).mp (hpre p hp)
    · rintro ⟨pre, post, heq, hpre⟩
      refine ⟨pre, ["AVAILABLE"], post, heq,
        (natGatewayCreatePollStep_done_iff _).mpr rfl, ?_⟩
      intro p hp
      exact (natGatewayCreatePollStep_retryable_iff p).mpr (hpre p hp)
  · intro gs h
    unfold natGatewayCreatePollStep
    rw [if_pos h]
  · intro s h
    unfold natGatewayCreatePollStep
    simp [h]

/-- Witness for C2: a run that retries once on a "PENDING" gateway and then
succeeds on "AVAILABLE", plus concrete evaluations of the two error cases. -/
theorem nat_gateway_create_poll_spec_witness :
    runRetry natGatewayCreatePollStep [["PENDING"], ["AVAILABLE"]] = .success ∧
    natGatewayCreatePollStep [] = .nonRetryable "creating error" ∧
    natGatewayCreatePollStep ["PENDING"] = .retryable "creating not ready retry" :=
  ⟨(nat_gateway_create_poll_spec.1 _).mpr ⟨[["PENDING"]], [], rfl, by decide⟩,
   nat_gateway_create_poll_spec.2.1 [] (by decide),
   nat_gateway_create_poll_spec.2.2 "PENDING" (by decide)⟩

theorem natGatewayDeletePollStep_done_iff (gs : List String) :
    natGatewayDeletePollStep gs = .done ↔ gs = [] := by
  unfold natGatewayDeletePollStep
  split_ifs with h1 h2
  · simp only [List.length_eq_zero] at h1
    simp [h1]
  · constructor
    · intro h; cases h
    · intro h; rw [h] at h1; simp at h1
  · constructor
    · intro h; cases h
    · intro h; rw [h] at h1; simp at h1

theorem natGatewayDeletePollStep_retryable_iff (gs : List String) :
    (∃ m, natGatewayDeletePollStep gs = .retryable m) ↔
      gs ≠ [] ∧ gs.headD "" ≠ NAT_FAILED_STATE := by
  unfold natGatewayDeletePollStep
  split_ifs with h1 h2
  · constructor
    · rintro ⟨m, hm⟩; cases hm
    · rintro ⟨hne, -⟩; exact absurd (List.length_eq_zero.mp h1) hne
  · constructor
    · rintro ⟨m, hm⟩; cases hm
    · rintro ⟨-, hh⟩; exact absurd h2 hh
  · constructor
    · intro _
      refine ⟨?_, h2⟩
      intro h
      rw [h] at h1
      simp at h1
    · intro _; exact ⟨_, rfl⟩

/-- C3: the NAT gateway delete wait loop returns success exactly when a
`DescribeNatGateways` poll reported zero remaining gateways after earlier
non-empty polls whose first gateway was not in `NAT_FAILED_STATE`; a poll
observing the failed state yields the non-retryable "delete NAT failed"; and
when every poll is non-empty with a non-failed first gateway, the loop retries
until the timeout. -/
theorem nat_gateway_delete_poll_spec :
    (∀ polls : List (List String),
      runRetry natGatewayDeletePollStep polls = .success ↔
        ∃ pre post, polls = pre ++ ([] : List String) :: post ∧
          ∀ p ∈ pre, p ≠ [] ∧ p.headD "" ≠ NAT_FAILED_STATE) ∧
    (∀ gs : List String, gs ≠ [] → gs.headD "" = NAT_FAILED_STATE →
      natGatewayDeletePollStep gs = .nonRetryable "delete NAT failed") ∧
    (∀ polls : List (List String),
      (∀ p ∈ polls, p ≠ [] ∧ p.headD "" ≠ NAT_FAILED_STATE) →
      runRetry natGatewayDeletePollStep polls = .timedOut) := by
  refine ⟨?_, ?_, ?_⟩
  · intro polls
    rw [runRetry_success_iff]
    constructor
    · rintro ⟨pre, g, post, heq, hg, hpre⟩
      have hgE := (natGatewayDeletePollStep_done_iff g).mp hg
      refine ⟨pre, post, by rw [heq, hgE], ?_⟩
      intro p hp
      exact (natGatewayDeletePollStep_retryable_iff p).mp (hpre p hp)
    · rintro ⟨pre, post, heq, hpre⟩
      exact ⟨pre, [], post, heq, (natGatewayDeletePollStep_done_iff _).mpr rfl,
        fun p hp => (natGatewayDeletePollStep_retryable_iff p).mpr (hpre p hp)⟩
  · intro gs hne hfail
    unfold natGatewayDeletePollStep
    rw [if_neg fun h => hne (List.length_eq_zero.mp h), if_pos hfail]
  · intro polls hall
    exact runRetry_timedOut _ polls fun p hp =>
      (natGatewayDeletePollStep_retryable_iff p).mpr (hall p hp)

/-- Witness for C3: a run that retries once on a non-empty response and then
succeeds on an empty one, the failed-state error, and a run that times out. -/
theorem nat_gateway_delete_poll_spec_witness :
    runRetry natGatewayDeletePollStep [["AVAILABLE"], []] = .success ∧
    natGatewayDeletePollStep ["FAILED"] = .nonRetryable "delete NAT failed" ∧
    runRetry natGatewayDeletePollStep [["AVAILABLE"]] = .timedOut :=
  ⟨(nat_gateway_delete_poll_spec.1 _).mpr ⟨[["AVAILABLE"]], [], rfl, by decide⟩,
   nat_gateway_delete_poll_spec.2.1 ["FAILED"] (by decide) (by decide),
   nat_gateway_delete_poll_spec.2.2 [["AVAILABLE"]] (by decide)⟩

theorem emrClusterPollStep_done_iff (stopCodes : List String) (expected : Int)
    (err : Option GoError) (statuses : List Int) :
    emrClusterPollStep stopCodes expected err statuses = .done ↔
      emrPollDone stopCodes expected err statuses := by
  unfold emrClusterPollStep emrPollDone
  split_ifs with h1 h2 h3
  · exact ⟨fun _ => Or.inl h1, fun _ => rfl⟩
  · constructor
    · intro h; cases h
    · rintro (h | ⟨he, hs⟩)
      · exact absurd h h1
      · rcases h2 with ⟨hne, hhd⟩
        rcases hs with hs | hs
        · exact absurd hs hne
        · exact absurd hs hhd
  · constructor
    · intro h; cases h
    · rintro (h | ⟨he, -⟩)
      · exact absurd h h1
      · rw [he] at h3; cases h3
  · refine ⟨fun _ => Or.inr ⟨?_, ?_⟩, fun _ => rfl⟩
    · cases herr : err with
      | none => rfl
      | some e => rw [herr] at h3; exact absurd rfl h3
    · rcases Decidable.not_and_iff_or_not.mp h2 with h | h
      · exact Or.inl (Decidable.not_not.mp h)
      · exact Or.inr (Decidable.not_not.mp h)

theorem emrClusterPollStep_retryable_of_not_done (stopCodes : List String)
    (expected : Int) (err : Option GoError) (statuses : List Int)
    (h : ¬ emrPollDone stopCodes expected err statuses) :
    ∃ m, emrClusterPollStep stopCodes expected err statuses = .retryable m := by
  cases he : emrClusterPollStep stopCodes expected err statuses with
  | done => exact absurd ((emrClusterPollStep_done_iff _ _ _ _).mp he) h
  | retryable m => exact ⟨m, rfl⟩
  | nonRetryable m =>
    exfalso
    revert he
    unfold emrClusterPollStep
    split_ifs <;> intro he <;> cases he

/-- C5 counterexample: the claim says the EMR create polling loop returns
success only when the polled cluster status equals `EmrInternetStatusCreated`,
but a poll whose response contains no cluster at all (and no error) also ends
the loop successfully, although no status equal to the expected value was ever
observed. -/
theorem emr_create_poll_succeeds_without_status :
    runRetry emrClusterCreatePoll [(none, ([] : List Int))] = .success ∧
    (∀ s ∈ ([] : List Int), s ≠ EmrInternetStatusCreated) :=
  ⟨by decide, by simp⟩

/-- C5 (amended): each EMR polling loop (create, update, delete) returns
success exactly when some poll satisfies the loop's stop condition — the first
cluster status equals the expected terminal value
(`EmrInternetStatusCreated` for create and update, `EmrInternetStatusDeleted`
for delete), or the response contains no cluster, or the describe call failed
with `InternalError.ClusterNotFound` (for delete also
`UnauthorizedOperation`) — after earlier polls that do not satisfy it, which
are retried; when no poll satisfies the stop condition the loop retries until
its fixed timeout. -/
theorem emr_poll_loops_amended :
    ∀ polls : List (Option GoError × List Int),
      (runRetry emrClusterCreatePoll polls = .success ↔
        ∃ pre g post, polls = pre ++ g :: post ∧
          emrPollDone ["InternalError.ClusterNotFound"] EmrInternetStatusCreated g.1 g.2 ∧
          ∀ p ∈ pre,
            ¬ emrPollDone ["InternalError.ClusterNotFound"] EmrInternetStatusCreated p.1 p.2) ∧
      (runRetry emrClusterUpdatePoll polls = .success ↔
        ∃ pre g post, polls = pre ++ g :: post ∧
          emrPollDone ["InternalError.ClusterNotFound"] EmrInternetStatusCreated g.1 g.2 ∧
          ∀ p ∈ pre,
            ¬ emrPollDone ["InternalError.ClusterNotFound"] EmrInternetStatusCreated p.1 p.2) ∧
      (runRetry emrClusterDeletePoll polls = .success ↔
        ∃ pre g post, polls = pre ++ g :: post ∧
          emrPollDone ["InternalError.ClusterNotFound", "UnauthorizedOperation"]
            EmrInternetStatusDeleted g.1 g.2 ∧
          ∀ p ∈ pre,
            ¬ emrPollDone ["InternalError.ClusterNotFound", "UnauthorizedOperation"]
                EmrInternetStatusDeleted p.1 p.2) ∧
      ((∀ p ∈ polls,
          ¬ emrPollDone ["InternalError.ClusterNotFound"] EmrInternetStatusCreated p.1 p.2) →
        runRetry emrClusterCreatePoll polls = .timedOut) := by
  intro polls
  refine ⟨?_, ?_, ?_, ?_⟩
  · exact runRetry_success_iff_done emrClusterCreatePoll _
      (fun a => emrClusterPollStep_done_iff _ _ a.1 a.2)
      (fun a => emrClusterPollStep_retryable_of_not_done _ _ a.1 a.2) polls
  · exact runRetry_success_iff_done emrClusterUpdatePoll _
      (fun a => emrClusterPollStep_done_iff _ _ a.1 a.2)
      (fun a => emrClusterPollStep_retryable_of_not_done _ _ a.1 a.2) polls
  · exact runRetry_success_iff_done emrClusterDeletePoll _
      (fun a => emrClusterPollStep_done_iff _ _ a.1 a.2)
      (fun a => emrClusterPollStep_retryable_of_not_done _ _ a.1 a.2) polls
  · intro hall
    exact runRetry_timedOut _ polls fun p hp =>
      emrClusterPollStep_retryable_of_not_done _ _ p.1 p.2 (hall p hp)

/-- Witness for C5 (amended): the create poll retries on a cluster whose
status is 5 and then succeeds when the status reaches
`EmrInternetStatusCreated`. -/
theorem emr_poll_loops_amended_witness :
    runRetry emrClusterCreatePoll
      [(none, [5]), (none, [EmrInternetStatusCreated])] = .success :=
  ((emr_poll_loops_amended _).1).mpr
    ⟨[(none, [5])], (none, [EmrInternetStatusCreated]), [], rfl, by decide, by decide⟩

/-- C4 counterexample: the monitor tmp cvm agent resource declares only
create, read and delete — its Update handler is commented out in the source —
so not every resource definition declares all four lifecycle operations. -/
theorem monitor_tmp_cvm_agent_missing_update :
    ("tencentcloud_monitor_tmp_cvm_agent", resourceTencentCloudMonitorTmpCvmAgent)
        ∈ repoResources ∧
      resourceTencentCloudMonitorTmpCvmAgent.hasUpdate = false := by
  decide

/-- C4 (amended): every resource definition in the repository declares
create, read and delete, and every one except the monitor tmp cvm agent
resource also declares update. -/
theorem repo_resources_lifecycle_amended :
    ∀ r ∈ repoResources,
      r.2.hasCreate = true ∧ r.2.hasRead = true ∧ r.2.hasDelete = true ∧
        (r.1 ≠ "tencentcloud_monitor_tmp_cvm_agent" → r.2.hasUpdate = true) := by
  decide

/-- Witness for C4 (amended): instantiation at the NAT gateway resource,
which declares all four operations. -/
theorem repo_resources_lifecycle_amended_witness :
    resourceTencentCloudNatGateway.hasUpdate = true :=
  (repo_resources_lifecycle_amended
      ("tencentcloud_nat_gateway", resourceTencentCloudNatGateway)
      (by decide)).2.2.2 (by decide)

/-- C7: a NAT gateway configuration passes schema validation only if its name
byte length is between 1 and 60, its effective `max_concurrent` is one of
1000000, 3000000, 10000000 — being 1000000 when the argument is omitted — and
its `assigned_eip_set` has between 1 and 10 elements, each accepted by the IP
validator. -/
theorem nat_gateway_schema_validation :
    ∀ c : NatGatewayConfig, natGatewayValidateConfig c = true →
      (1 ≤ c.name.utf8ByteSize ∧ c.name.utf8ByteSize ≤ 60) ∧
      (natGatewayMaxConcurrentEffective c = 1000000 ∨
        natGatewayMaxConcurrentEffective c = 3000000 ∨
        natGatewayMaxConcurrentEffective c = 10000000) ∧
      (c.maxConcurrent = none → natGatewayMaxConcurrentEffective c = 1000000) ∧
      (1 ≤ c.assignedEipSet.length ∧ c.assignedEipSet.length ≤ 10) ∧
      (∀ ip ∈ c.assignedEipSet, validateIp ip = true) := by
  intro c h
  unfold natGatewayValidateConfig validateStringLengthInRange validateAllowedIntValue at h
  simp only [Bool.and_eq_true, decide_eq_true_eq, List.all_eq_true] at h
  obtain ⟨⟨⟨⟨h1, h2⟩, h3⟩, h4⟩, h5⟩ := h
  have h2' : natGatewayMaxConcurrentEffective c = 1000000 ∨
      natGatewayMaxConcurrentEffective c = 3000000 ∨
      natGatewayMaxConcurrentEffective c = 10000000 := by
    simpa using h2
  refine ⟨h1, h2', ?_, ⟨h3, h4⟩, h5⟩
  intro hn
  unfold natGatewayMaxConcurrentEffective
  rw [hn]
  rfl

/-- Witness for C7: a concrete configuration with an omitted `max_concurrent`
that passes validation and defaults to 1000000. -/
theorem nat_gateway_schema_validation_witness :
    natGatewayValidateConfig ⟨"vpc-1", "gw", none, none, ["1.2.3.4"], none⟩ = true ∧
    natGatewayMaxConcurrentEffective ⟨"vpc-1", "gw", none, none, ["1.2.3.4"], none⟩
      = 1000000 :=
  ⟨by decide, (nat_gateway_schema_validation _ (by decide)).2.2.1 rfl⟩

theorem firstChanged_eq_none_iff (changed : String → Bool) (l : List String) :
    firstChanged changed l = none ↔ ∀ a ∈ l, changed a = false := by
  induction l with
  | nil => simp [firstChanged]
  | cons a rest ih =>
    unfold firstChanged
    by_cases h : changed a = true
    · simp [h]
    · simp only [Bool.not_eq_true] at h
      simp [h, ih]

theorem firstChanged_eq_some (changed : String → Bool) (l : List String) (a : String)
    (h : firstChanged changed l = some a) : changed a = true ∧ a ∈ l := by
  induction l with
  | nil => cases h
  | cons b rest ih =>
    unfold firstChanged at h
    by_cases hb : changed b = true
    · rw [if_pos hb] at h
      injection h with h
      subst h
      exact ⟨hb, List.mem_cons_self b rest⟩
    · rw [if_neg hb] at h
      obtain ⟨h1, h2⟩ := ih h
      exact ⟨h1, List.mem_cons_of_mem b h2⟩

/-- C9: whenever any of the ten configurable arguments of the wedata rule
template has changed, update returns the error "argument `name` cannot be
changed" (for a changed argument) before the `ModifyRuleTemplate` SDK call;
when no argument changed, the request it issues carries only the template ID —
every other field is unset — so it never carries a changed field. -/
theorem wedata_rule_template_update_immutable :
    ∀ (id : String) (d : WedataResourceData),
      ((∃ a ∈ wedataImmutableArgs, d.changed a = true) →
        ∃ a, a ∈ wedataImmutableArgs ∧ d.changed a = true ∧
          resourceTencentCloudWedataRuleTemplateUpdate id d =
            .error ("argument `" ++ a ++ "` cannot be changed")) ∧
      (∀ req, resourceTencentCloudWedataRuleTemplateUpdate id d = .ok req →
        req = { templateId := id, templateType := none, name := none,
                qualityDim := none, sourceObjectType := none, description := none,
                sourceEngineTypes := [], multiSourceFlag := none,
                sqlExpression := none, projectId := none, whereFlag := none }) := by
  intro id d
  cases hfc : firstChanged d.changed wedataImmutableArgs with
  | some a =>
    constructor
    · intro _
      obtain ⟨ha, hmem⟩ := firstChanged_eq_some d.changed wedataImmutableArgs a hfc
      refine ⟨a, hmem, ha, ?_⟩
      unfold resourceTencentCloudWedataRuleTemplateUpdate
      rw [hfc]
    · intro req hreq
      unfold resourceTencentCloudWedataRuleTemplateUpdate at hreq
      rw [hfc] at hreq
      cases hreq
  | none =>
    have hall := (firstChanged_eq_none_iff d.changed wedataImmutableArgs).mp hfc
    constructor
    · rintro ⟨a, hmem, ha⟩
      rw [hall a hmem] at ha
      cases ha
    · intro req hreq
      unfold resourceTencentCloudWedataRuleTemplateUpdate at hreq
      rw [hfc] at hreq
      injection hreq with hreq
      subst hreq
      simp [hall "type" (by decide), hall "name" (by decide),
        hall "quality_dim" (by decide), hall "source_object_type" (by decide),
        hall "description" (by decide), hall "source_engine_types" (by decide),
        hall "multi_source_flag" (by decide), hall "sql_expression" (by decide),
        hall "project_id" (by decide), hall "where_flag" (by decide)]

/-- Witness for C9: with only `name` changed, the update returns exactly the
immutable-argument error. -/
theorem wedata_rule_template_update_immutable_witness :
    resourceTencentCloudWedataRuleTemplateUpdate "42" wedataChangedNameData =
      .error "argument `name` cannot be changed" := by
  obtain ⟨a, hmem, ha, herr⟩ :=
    (wedata_rule_template_update_immutable "42" wedataChangedNameData).1
      ⟨"name", by decide, by decide⟩
  have haeq : a = "name" := by
    have : (a == "name") = true := ha
    simpa using this
  rw [haeq] at herr
  exact herr

theorem retryContract_pure (o : SdkOracle) (res : Except String Unit) :
    RetryContract o (fun tr => (tr, res)) := by
  intro tr
  refine ⟨⟨[], by simp⟩, ?_⟩
  intro i e h1 h2 _
  exact absurd h1 (by simpa using h2)

theorem retryContract_emit (o : SdkOracle) (c : SdkCall)
    (k : Nat → List SdkCall → List SdkCall × Except String Unit)
    (hc : WrappedFixed c) (hk : ∀ n, RetryContract o (k n)) :
    RetryContract o (fun tr => emitCall o c tr k) := by
  intro tr
  show (∃ rest, (emitCall o c tr k).1 = tr ++ rest ∧ ∀ x ∈ rest, WrappedFixed x) ∧
    (∀ i e, tr.length ≤ i → i < (emitCall o c tr k).1.length → o i = .error e →
      i + 1 = (emitCall o c tr k).1.length ∧ (emitCall o c tr k).2 = .error e)
  cases ho : o tr.length with
  | error e =>
    have heq : emitCall o c tr k = (tr ++ [c], .error e) := by
      unfold emitCall
      rw [ho]
    rw [heq]
    refine ⟨⟨[c], rfl, by simpa using hc⟩, ?_⟩
    intro i e' h1 h2 hoe
    simp only [List.length_append, List.length_cons, List.length_nil] at h2 ⊢
    have hi : i = tr.length := by omega
    subst hi
    rw [ho] at hoe
    injection hoe with he
    subst he
    exact ⟨by omega, rfl⟩
  | ok n =>
    have heq : emitCall o c tr k = k n (tr ++ [c]) := by
      unfold emitCall
      rw [ho]
    rw [heq]
    obtain ⟨⟨rest, hrest, hwr⟩, hstop⟩ := hk n (tr ++ [c])
    constructor
    · refine ⟨c :: rest, ?_, ?_⟩
      · rw [hrest]; simp
      · intro x hx
        rcases List.mem_cons.mp hx with h | h
        · rw [h]; exact hc
        · exact hwr x h
    · intro i e h1 h2 hoe
      rcases Nat.eq_or_lt_of_le h1 with hi | hi
      · rw [hi] at ho
        rw [ho] at hoe
        cases hoe
      · have hle : (tr ++ [c]).length ≤ i := by
          simp only [List.length_append, List.length_cons, List.length_nil]
          omega
        exact hstop i e hle h2 hoe

theorem retryContract_ite (o : SdkOracle) (b : Prop) [Decidable b]
    (f g : List SdkCall → List SdkCall × Except String Unit)
    (hf : RetryContract o f) (hg : RetryContract o g) :
    RetryContract o (fun tr => if b then f tr else g tr) := by
  by_cases hb : b
  · simpa [hb] using hf
  · simpa [hb] using hg

theorem retryContract_maybe (o : SdkOracle) (cond : Prop) [Decidable cond]
    (c : SdkCall) (k : Nat → List SdkCall → List SdkCall × Except String Unit)
    (hc : WrappedFixed c) (hk : ∀ n, RetryContract o (k n)) :
    RetryContract o (fun tr => maybeCall cond o c tr k) := by
  unfold maybeCall
  exact retryContract_ite o cond _ _ (retryContract_emit o c k hc hk) (hk 0)

theorem retryRun_of_contract (o : SdkOracle)
    (f : List SdkCall → List SdkCall × Except String Unit)
    (h : RetryContract o f) : RetryRunContract o (f []) := by
  obtain ⟨⟨rest, hrest, hwr⟩, hstop⟩ := h []
  constructor
  · intro c hc
    apply hwr
    simpa [hrest] using hc
  · intro i e h2 hoe
    exact hstop i e (Nat.zero_le i) h2 hoe

theorem natGatewayReadFrom_contract (o : SdkOracle) :
    RetryContract o (natGatewayReadFrom o) := by
  unfold natGatewayReadFrom
  refine retryContract_emit o _ _ (Or.inl rfl) fun n => ?_
  refine retryContract_ite o _ _ _ (retryContract_pure o _) ?_
  exact retryContract_emit o _ _ (Or.inl rfl) fun _ => retryContract_pure o _

theorem natGatewayCreateFrom_contract (hasTags : Bool) (o : SdkOracle) :
    RetryContract o (natGatewayCreateFrom hasTags o) := by
  unfold natGatewayCreateFrom
  refine retryContract_emit o _ _ (Or.inl rfl) fun n => ?_
  refine retryContract_ite o _ _ _ (retryContract_pure o _) ?_
  refine retryContract_maybe o _ _ _ (Or.inr rfl) fun _ => ?_
  exact retryContract_emit o _ _ (Or.inl rfl) fun _ => natGatewayReadFrom_contract o

theorem natGatewayUpdateTagsPhase_contract (a : NatUpdateArgs) (o : SdkOracle) :
    RetryContract o (natGatewayUpdateTagsPhase a o) := by
  unfold natGatewayUpdateTagsPhase
  exact retryContract_maybe o _ _ _ (Or.inr rfl) fun _ => retryContract_pure o _

theorem natGatewayUpdateEipPhase_contract (a : NatUpdateArgs) (o : SdkOracle) :
    RetryContract o (natGatewayUpdateEipPhase a o) := by
  unfold natGatewayUpdateEipPhase
  refine retryContract_ite o _ _ _ ?_ (natGatewayUpdateTagsPhase_contract a o)
  refine retryContract_maybe o _ _ _ (Or.inl rfl) fun _ => ?_
  refine retryContract_maybe o _ _ _ (Or.inl rfl) fun _ => ?_
  refine retryContract_maybe o _ _ _ (Or.inl rfl) fun _ => ?_
  exact retryContract_maybe o _ _ _ (Or.inl rfl) fun _ =>
    natGatewayUpdateTagsPhase_contract a o

theorem natGatewayUpdateFrom_contract (a : NatUpdateArgs) (o : SdkOracle) :
    RetryContract o (natGatewayUpdateFrom a o) := by
  unfold natGatewayUpdateFrom
  refine retryContract_ite o _ _ _ (retryContract_pure o _) ?_
  refine retryContract_maybe o _ _ _ (Or.inl rfl) fun _ => ?_
  exact retryContract_maybe o _ _ _ (Or.inl rfl) fun _ =>
    natGatewayUpdateEipPhase_contract a o

/-- C6: in every NAT gateway lifecycle operation (over any environment
behaviour and any argument changes), every SDK call issued is wrapped in
`resource.Retry` with one of the two fixed timeouts (readRetryTimeout or
writeRetryTimeout), and whenever a retry wrapper returns an error the
operation stops — the failing call is its last — and returns that same error
to the caller. -/
theorem nat_gateway_retry_contract :
    ∀ (o : SdkOracle) (hasTags : Bool) (a : NatUpdateArgs),
      RetryRunContract o (resourceTencentCloudNatGatewayCreateRun hasTags o) ∧
      RetryRunContract o (resourceTencentCloudNatGatewayReadRun o) ∧
      RetryRunContract o (resourceTencentCloudNatGatewayUpdateRun a o) ∧
      RetryRunContract o (resourceTencentCloudNatGatewayDeleteRun o) := by
  intro o hasTags a
  refine ⟨?_, ?_, ?_, ?_⟩
  · exact retryRun_of_contract o _ (natGatewayCreateFrom_contract hasTags o)
  · exact retryRun_of_contract o _ (natGatewayReadFrom_contract o)
  · exact retryRun_of_contract o _ (natGatewayUpdateFrom_contract a o)
  · refine retryRun_of_contract o (natGatewayDeleteFrom o) ?_
    unfold natGatewayDeleteFrom
    refine retryContract_emit o _ _ (Or.inr rfl) fun _ => ?_
    exact retryContract_emit o _ _ (Or.inl rfl) fun _ => retryContract_pure o _

/-- Witness for C6: with an environment whose first call fails, the delete
operation returns that error after issuing exactly that one call. -/
theorem nat_gateway_retry_contract_witness :
    (resourceTencentCloudNatGatewayDeleteRun failingOracle).2 = .error "network error" :=
  ((nat_gateway_retry_contract failingOracle true
      ⟨false, false, false, false, false, false, [], []⟩).2.2.2.2 0 "network error"
    (by decide) rfl).2

theorem natGatewayUnassignedAux_length (new : List String) (n : Nat) :
    ∀ (l : List String) (acc : List String × String), acc.1.length < n →
      (l.foldl (fun acc ip =>
        if ip ∈ new then acc
        else if acc.1.length + 1 = n then (acc.1, ip)
        else (acc.1 ++ [ip], acc.2)) acc).1.length < n := by
  intro l
  induction l with
  | nil => intro acc h; exact h
  | cons ip rest ih =>
    intro acc h
    simp only [List.foldl_cons]
    by_cases hm : ip ∈ new
    · rw [if_pos hm]
      exact ih acc h
    · rw [if_neg hm]
      by_cases ht : acc.1.length + 1 = n
      · rw [if_pos ht]
        exact ih _ h
      · rw [if_neg ht]
        refine ih _ ?_
        simp only [List.length_append, List.length_cons, List.length_nil]
        omega

theorem natGatewayUnassignedAux_allRemoved (new : List String) (n : Nat) :
    ∀ (pre : List String) (last : String) (acc : List String × String),
      (∀ x ∈ pre, x ∉ new) → last ∉ new → acc.1.length + pre.length + 1 = n →
      (pre ++ [last]).foldl (fun acc ip =>
          if ip ∈ new then acc
          else if acc.1.length + 1 = n then (acc.1, ip)
          else (acc.1 ++ [ip], acc.2)) acc = (acc.1 ++ pre, last) := by
  intro pre
  induction pre with
  | nil =>
    intro last acc _ hlast hn
    simp only [List.length_nil, Nat.add_zero] at hn
    simp only [List.nil_append, List.foldl_cons, List.foldl_nil, if_neg hlast,
      if_pos hn, List.append_nil]
  | cons p pre' ih =>
    intro last acc hall hlast hn
    have hp : p ∉ new := hall p (List.mem_cons_self p pre')
    have hall' : ∀ x ∈ pre', x ∉ new := fun x hx => hall x (List.mem_cons_of_mem p hx)
    simp only [List.length_cons] at hn
    have hne : ¬ (acc.1.length + 1 = n) := by omega
    simp only [List.cons_append, List.foldl_cons, if_neg hp, if_neg hne]
    have := ih last (acc.1 ++ [p], acc.2) hall' hlast
      (by simp only [List.length_append, List.length_cons, List.length_nil]; omega)
    rw [this]
    simp

theorem natGatewayUnassignedAux_noTrigger (new : List String) (n : Nat) :
    ∀ (l : List String) (acc : List String × String), acc.1.length + l.length < n →
      (l.foldl (fun acc ip =>
        if ip ∈ new then acc
        else if acc.1.length + 1 = n then (acc.1, ip)
        else (acc.1 ++ [ip], acc.2)) acc).2 = acc.2 := by
  intro l
  induction l with
  | nil => intro acc _; rfl
  | cons ip rest ih =>
    intro acc h
    simp only [List.length_cons] at h
    simp only [List.foldl_cons]
    by_cases hm : ip ∈ new
    · rw [if_pos hm]
      exact ih acc (by omega)
    · rw [if_neg hm]
      have hne : ¬ (acc.1.length + 1 = n) := by omega
      rw [if_neg hne]
      exact ih (acc.1 ++ [ip], acc.2)
        (by simp only [List.length_append, List.length_cons, List.length_nil]; omega)

theorem natGatewayUnassignedAux_kept (new : List String) (n : Nat) :
    ∀ (l : List String) (acc : List String × String),
      (∃ x ∈ l, x ∈ new) → acc.1.length + l.length ≤ n →
      (l.foldl (fun acc ip =>
        if ip ∈ new then acc
        else if acc.1.length + 1 = n then (acc.1, ip)
        else (acc.1 ++ [ip], acc.2)) acc).2 = acc.2 := by
  intro l
  induction l with
  | nil =>
    rintro acc ⟨x, hx, -⟩ -
    cases hx
  | cons ip rest ih =>
    rintro acc ⟨x, hx, hxn⟩ hle
    simp only [List.length_cons] at hle
    simp only [List.foldl_cons]
    by_cases hm : ip ∈ new
    · rw [if_pos hm]
      by_cases hr : ∃ x ∈ rest, x ∈ new
      · exact ih acc hr (by omega)
      · exact natGatewayUnassignedAux_noTrigger new n rest acc (by omega)
    · have hxr : x ∈ rest := by
        rcases List.mem_cons.mp hx with he | hr
        · exact absurd (he ▸ hxn) hm
        · exact hr
      have hrest : rest ≠ [] := List.ne_nil_of_mem hxr
      have hlen : 1 ≤ rest.length := List.length_pos.mpr hrest
      rw [if_neg hm]
      have hne : ¬ (acc.1.length + 1 = n) := by omega
      rw [if_neg hne]
      exact ih (acc.1 ++ [ip], acc.2) ⟨x, hxr, hxn⟩
        (by simp only [List.length_append, List.length_cons, List.length_nil]; omega)

theorem natGatewayAssignedAux_filter (old : List String) (kk lim : Nat) :
    ∀ (l : List String) (acc : List String × String),
      l.foldl (fun acc ip =>
          if ip ∈ old then acc
          else if acc.1.length + kk + 1 = lim then (acc.1, ip)
          else (acc.1 ++ [ip], acc.2)) acc =
        (l.filter fun ip => decide (ip ∉ old)).foldl (fun acc ip =>
          if ip ∈ old then acc
          else if acc.1.length + kk + 1 = lim then (acc.1, ip)
          else (acc.1 ++ [ip], acc.2)) acc := by
  intro l
  induction l with
  | nil => intro acc; rfl
  | cons ip rest ih =>
    intro acc
    by_cases hm : ip ∈ old
    · have hd : decide (ip ∉ old) = false := by simp [hm]
      simp only [List.foldl_cons, List.filter_cons, hd, if_pos hm, Bool.false_eq_true,
        if_false]
      exact ih acc
    · have hd : decide (ip ∉ old) = true := by simp [hm]
      simp only [List.foldl_cons, List.filter_cons, hd, if_neg hm, if_true]
      exact ih _

theorem natGatewayAssignedAux_append (old : List String) (kk lim : Nat) :
    ∀ (l : List String) (acc : List String × String), (∀ x ∈ l, x ∉ old) →
      acc.1.length + l.length + kk + 1 ≤ lim →
      l.foldl (fun acc ip =>
          if ip ∈ old then acc
          else if acc.1.length + kk + 1 = lim then (acc.1, ip)
          else (acc.1 ++ [ip], acc.2)) acc = (acc.1 ++ l, acc.2) := by
  intro l
  induction l with
  | nil => intro acc _ _; simp
  | cons ip rest ih =>
    intro acc hall hle
    have hp : ip ∉ old := hall ip (List.mem_cons_self ip rest)
    have hall' : ∀ x ∈ rest, x ∉ old := fun x hx => hall x (List.mem_cons_of_mem ip hx)
    simp only [List.length_cons] at hle
    have hne : ¬ (acc.1.length + kk + 1 = lim) := by omega
    simp only [List.foldl_cons, if_neg hp, if_neg hne]
    have := ih (acc.1 ++ [ip], acc.2) hall'
      (by simp only [List.length_append, List.length_cons, List.length_nil]; omega)
    rw [this]
    simp

theorem natGatewayAssignedAux_spin (old : List String) (kk lim : Nat) :
    ∀ (l : List String) (last : String) (acc : List String × String),
      (∀ x ∈ l, x ∉ old) → last ∉ old → acc.1.length + kk + 1 = lim →
      (l ++ [last]).foldl (fun acc ip =>
          if ip ∈ old then acc
          else if acc.1.length + kk + 1 = lim then (acc.1, ip)
          else (acc.1 ++ [ip], acc.2)) acc = (acc.1, last) := by
  intro l
  induction l with
  | nil =>
    intro last acc _ hlast hn
    simp only [List.nil_append, List.foldl_cons, List.foldl_nil, if_neg hlast, if_pos hn]
  | cons p l' ih =>
    intro last acc hall hlast hn
    have hp : p ∉ old := hall p (List.mem_cons_self p l')
    have hall' : ∀ x ∈ l', x ∉ old := fun x hx => hall x (List.mem_cons_of_mem p hx)
    simp only [List.cons_append, List.foldl_cons, if_neg hp, if_pos hn]
    exact ih last (acc.1, p) hall' hlast hn

theorem natGatewayAssignedAux_noLimit (old : List String) (kk lim : Nat) :
    ∀ (l : List String) (acc : List String × String), (∀ x ∈ l, x ∉ old) → lim ≤ kk →
      l.foldl (fun acc ip =>
          if ip ∈ old then acc
          else if acc.1.length + kk + 1 = lim then (acc.1, ip)
          else (acc.1 ++ [ip], acc.2)) acc = (acc.1 ++ l, acc.2) := by
  intro l
  induction l with
  | nil => intro acc _ _; simp
  | cons ip rest ih =>
    intro acc hall hlim
    have hp : ip ∉ old := hall ip (List.mem_cons_self ip rest)
    have hall' : ∀ x ∈ rest, x ∉ old := fun x hx => hall x (List.mem_cons_of_mem ip hx)
    have hne : ¬ (acc.1.length + kk + 1 = lim) := by omega
    simp only [List.foldl_cons, if_neg hp, if_neg hne]
    have := ih (acc.1 ++ [ip], acc.2) hall' hlim
    rw [this]
    simp

theorem natGatewayUpdate_eip_order (old new : List String) :
    resourceTencentCloudNatGatewayUpdateRun
        ⟨false, false, false, false, true, false, old, new⟩ okOracle =
      ((if (natGatewayCollectUnassigned old new).1 ≠ [] then
          [⟨.disassociateNatGatewayAddress (natGatewayCollectUnassigned old new).1,
            some .read⟩]
        else []) ++
       (if (natGatewayCollectAssigned old new).1 ≠ [] then
          [⟨.associateNatGatewayAddress (natGatewayCollectAssigned old new).1, some .read⟩]
        else []) ++
       (if (natGatewayCollectUnassigned old new).2 ≠ "" then
          [⟨.disassociateNatGatewayAddress [(natGatewayCollectUnassigned old new).2],
            some .read⟩]
        else []) ++
       (if (natGatewayCollectAssigned old new).2 ≠ "" then
          [⟨.associateNatGatewayAddress [(natGatewayCollectAssigned old new).2],
            some .read⟩]
        else []),
       .ok ()) := by
  unfold resourceTencentCloudNatGatewayUpdateRun natGatewayUpdateFrom
    natGatewayUpdateEipPhase natGatewayUpdateTagsPhase maybeCall emitCall okOracle
  by_cases h1 : (natGatewayCollectUnassigned old new).1 = [] <;>
  by_cases h2 : (natGatewayCollectAssigned old new).1 = [] <;>
  by_cases h3 : (natGatewayCollectUnassigned old new).2 = "" <;>
  by_cases h4 : (natGatewayCollectAssigned old new).2 = "" <;>
    simp [h1, h2, h3, h4]

/-- C8 counterexample: with no old EIP and nine new EIPs, every candidate
satisfies `len(request)+eipSetLength+1 == NAT_EIP_MAX_LIMIT`, so all nine are
withheld into `backUpNewIp` (each overwriting the previous): the bulk
associate request stays empty and only the ninth EIP is associated by the
separate final request — contradicting the claim that one new EIP is withheld
and the rest associated. -/
theorem nat_gateway_eip_update_multiple_withheld :
    natGatewayCollectAssigned []
        ["10.0.0.1", "10.0.0.2", "10.0.0.3", "10.0.0.4", "10.0.0.5",
         "10.0.0.6", "10.0.0.7", "10.0.0.8", "10.0.0.9"] = ([], "10.0.0.9") ∧
    "10.0.0.1" ∉ (natGatewayCollectAssigned []
        ["10.0.0.1", "10.0.0.2", "10.0.0.3", "10.0.0.4", "10.0.0.5",
         "10.0.0.6", "10.0.0.7", "10.0.0.8", "10.0.0.9"]).1 ∧
    "10.0.0.1" ≠ (natGatewayCollectAssigned []
        ["10.0.0.1", "10.0.0.2", "10.0.0.3", "10.0.0.4", "10.0.0.5",
         "10.0.0.6", "10.0.0.7", "10.0.0.8", "10.0.0.9"]).2 := by
  decide

/-- C8 (amended): during an update changing `assigned_eip_set`, the bulk
disassociate request never contains every old EIP: when every old EIP is
removed, exactly the last one is withheld into `backUpOldIp` (and when some
old EIP is kept, `backUpOldIp` stays unset); on the associate side, the
candidates (new EIPs absent from the old set) are all placed in the bulk
request when the limit condition never fires, while every candidate processed
when `len(request)+eipSetLength+1 == NAT_EIP_MAX_LIMIT` is withheld into
`backUpNewIp` — possibly several, only the last of which survives for the
separate final request; and the requests are issued in the order bulk
disassociate, bulk associate, backup disassociate, backup associate. -/
theorem nat_gateway_eip_update_amended :
    ∀ oldE newE : List String,
      (oldE ≠ [] →
        (natGatewayCollectUnassigned oldE newE).1.length < oldE.length) ∧
      (∀ pre last, oldE = pre ++ [last] → (∀ x ∈ oldE, x ∉ newE) →
        natGatewayCollectUnassigned oldE newE = (pre, last)) ∧
      ((∃ x ∈ oldE, x ∈ newE) →
        (natGatewayCollectUnassigned oldE newE).2 = "") ∧
      ((newE.filter fun ip => decide (ip ∉ oldE)).length + newE.length + 1
          ≤ NAT_EIP_MAX_LIMIT →
        natGatewayCollectAssigned oldE newE =
          (newE.filter fun ip => decide (ip ∉ oldE), "")) ∧
      (∀ c1 c2 last,
        (newE.filter fun ip => decide (ip ∉ oldE)) = c1 ++ c2 ++ [last] →
        c1.length + newE.length + 1 = NAT_EIP_MAX_LIMIT →
        natGatewayCollectAssigned oldE newE = (c1, last)) ∧
      (NAT_EIP_MAX_LIMIT ≤ newE.length →
        natGatewayCollectAssigned oldE newE =
          (newE.filter fun ip => decide (ip ∉ oldE), "")) ∧
      (resourceTencentCloudNatGatewayUpdateRun
          ⟨false, false, false, false, true, false, oldE, newE⟩ okOracle =
        ((if (natGatewayCollectUnassigned oldE newE).1 ≠ [] then
            [⟨.disassociateNatGatewayAddress (natGatewayCollectUnassigned oldE newE).1,
              some .read⟩]
          else []) ++
         (if (natGatewayCollectAssigned oldE newE).1 ≠ [] then
            [⟨.associateNatGatewayAddress (natGatewayCollectAssigned oldE newE).1,
              some .read⟩]
          else []) ++
         (if (natGatewayCollectUnassigned oldE newE).2 ≠ "" then
            [⟨.disassociateNatGatewayAddress [(natGatewayCollectUnassigned oldE newE).2],
              some .read⟩]
          else []) ++
         (if (natGatewayCollectAssigned oldE newE).2 ≠ "" then
            [⟨.associateNatGatewayAddress [(natGatewayCollectAssigned oldE newE).2],
              some .read⟩]
          else []),
         .ok ())) := by
  intro oldE newE
  have hsub : ∀ x ∈ newE.filter (fun ip => decide (ip ∉ oldE)), x ∉ oldE := by
    intro x hx
    have hpx := List.of_mem_filter hx
    simpa using hpx
  refine ⟨?_, ?_, ?_, ?_, ?_, ?_, ?_⟩
  · intro hne
    unfold natGatewayCollectUnassigned
    exact natGatewayUnassignedAux_length newE oldE.length oldE ([], "")
      (List.length_pos.mpr hne)
  · rintro pre last rfl hall
    unfold natGatewayCollectUnassigned
    have := natGatewayUnassignedAux_allRemoved newE (pre ++ [last]).length pre last ([], "")
      (fun x hx => hall x (List.mem_append_left _ hx))
      (hall last (List.mem_append_right _ (List.mem_cons_self last [])))
      (by simp)
    rw [this]
    simp
  · intro hex
    unfold natGatewayCollectUnassigned
    exact natGatewayUnassignedAux_kept newE oldE.length oldE ([], "") hex (by simp)
  · intro hlen
    unfold natGatewayCollectAssigned
    rw [natGatewayAssignedAux_filter oldE newE.length NAT_EIP_MAX_LIMIT newE ([], "")]
    have := natGatewayAssignedAux_append oldE newE.length NAT_EIP_MAX_LIMIT
      (newE.filter fun ip => decide (ip ∉ oldE)) ([], "") hsub (by simpa using hlen)
    rw [this]
    simp
  · intro c1 c2 last heq hlim
    unfold natGatewayCollectAssigned
    rw [natGatewayAssignedAux_filter oldE newE.length NAT_EIP_MAX_LIMIT newE ([], "")]
    rw [heq, List.append_assoc, List.foldl_append]
    have hsubAll : ∀ x ∈ c1 ++ (c2 ++ [last]), x ∉ oldE := by
      rw [← List.append_assoc, ← heq]
      exact hsub
    have h1 := natGatewayAssignedAux_append oldE newE.length NAT_EIP_MAX_LIMIT c1 ([], "")
      (fun x hx => hsubAll x (List.mem_append_left _ hx)) (by simpa using Nat.le_of_eq hlim)
    rw [h1]
    have h2 := natGatewayAssignedAux_spin oldE newE.length NAT_EIP_MAX_LIMIT c2 last
      (([] : List String) ++ c1, "")
      (fun x hx => hsubAll x (List.mem_append_right _ (List.mem_append_left _ hx)))
      (hsubAll last (List.mem_append_right _
        (List.mem_append_right _ (List.mem_cons_self last []))))
      (by simpa using hlim)
    rw [h2]
    simp
  · intro hge
    unfold natGatewayCollectAssigned
    rw [natGatewayAssignedAux_filter oldE newE.length NAT_EIP_MAX_LIMIT newE ([], "")]
    have := natGatewayAssignedAux_noLimit oldE newE.length NAT_EIP_MAX_LIMIT
      (newE.filter fun ip => decide (ip ∉ oldE)) ([], "") hsub hge
    rw [this]
    simp
  · exact natGatewayUpdate_eip_order oldE newE

/-- Witness for C8 (amended): removing both old EIPs withholds exactly the
second one into `backUpOldIp` and bulk-disassociates only the first. -/
theorem nat_gateway_eip_update_amended_witness :
    natGatewayCollectUnassigned ["1.1.1.1", "2.2.2.2"] ["3.3.3.3"] =
      (["1.1.1.1"], "2.2.2.2") :=
  (nat_gateway_eip_update_amended ["1.1.1.1", "2.2.2.2"] ["3.3.3.3"]).2.1
    ["1.1.1.1"] "2.2.2.2" rfl (by decide)

end TencentCloud
